import Mathlib

/-!
# Verification of the SKiM980A board power-mode and clock-sequencing layer

Shallow embedding of `src/boards/SKiM980A/board.c` (LoRaMac-node, SKiM980A
target). Stateful C code is modelled by explicit state passing on a `State`
record holding the file's global flags, together with an event trace
(`List Event`) recording, in program order, the hardware/driver calls each
function performs. Spin-waits on hardware flags are recorded as `observeFlag`
events: the event is emitted at the moment the polled loop observes its ready
condition and exits (the claims under study assume the hardware eventually
reports ready; a stalled flag hangs the device by design).

Modelled build configuration (the preprocessor configuration the claims'
cited lines live under): `USE_POTENTIOMETER == 0`, `USE_ENCODER` undefined,
`USE_DEBUGGER` undefined, `USE_FULL_ASSERT` defined. The power source query
`GetBoardPowerSource` returns the constant `BATTERY_POWER` in the source.
-/

namespace SKiM980A

/-- GPIO pin identifiers used by `board.c`. -/
inductive Pin where
  | led1 | led2 | led3 | led4
  | oscHseIn | oscHseOut | oscLseIn | oscLseOut
  | usbDm | usbDp
  | jtagTms | jtagTck | jtagTdi | jtagTdo | jtagNrst
  deriving DecidableEq, Repr

/-- Electrical pin modes relevant here (`PIN_OUTPUT`, `PIN_INPUT`, `PIN_ANALOGIC`). -/
inductive PinMode where
  | output | input | analogic
  deriving DecidableEq, Repr

/-- Hardware ready flags polled by the clock sequences: regulator ready
(`PWR_FLAG_VOS` cleared), `RCC_FLAG_HSERDY`, `RCC_FLAG_LSERDY`,
`RCC_FLAG_PLLRDY`, and the system-clock-source status reading PLL. -/
inductive HwFlag where
  | vosReady | hseRdy | lseRdy | pllRdy | sysclkPll
  deriving DecidableEq, Repr

/-- System clock source selector values. -/
inductive SysclkSrc where
  | msi | hsi | hse | pll
  deriving DecidableEq, Repr

/-- Power source classification (`USB_POWER` / `BATTERY_POWER`). -/
inductive PowerSource where
  | usbPower | batteryPower
  deriving DecidableEq, Repr

/-- Status results of the vendor HAL configuration calls (`HAL_StatusTypeDef`). -/
inductive HalStatus where
  | ok | error | busy | timeout
  deriving DecidableEq, Repr

/-- One hardware/driver call performed by the board layer, recorded in program
order. Each constructor corresponds to one call site kind in `board.c`. -/
inductive Event where
  | halInit
  | gpioInit (p : Pin) (m : PinMode)
  | gpioWrite (p : Pin) (v : Nat)
  | pwrClkEnable
  | voltageScaling (scale : Nat)
  | observeFlag (f : HwFlag)
  | hseConfig (isOn : Bool)
  | lseConfig (isOn : Bool)
  | pllConfig
  | pllEnable
  | sysclkConfig (src : SysclkSrc)
  | periphClkConfigRtc
  | sysTickConfig
  | sysTickClkSourceConfig
  | nvicSetPriority
  | oscConfigCall
  | clockConfigCall
  | periphClkConfigCall
  | fifoInit (isTx : Bool) (size : Nat)
  | uartInit
  | uartConfig (baud : Nat)
  | rtcInit
  | lpmSetOffMode (enable : Bool)
  | adcInit
  | adcDeInit
  | spiInit
  | spiDeInit
  | sx1272IoInit
  | sx1272IoDeInit
  | sx1272IoDbgInit
  | sx1272IoTcxoInit
  | timerInit
  | timerSetValue (v : Nat)
  | timerStart
  | rtcSetMcuWakeUpTime
  | wdtInit
  | criticalBegin
  | criticalEnd
  | disablePVD
  | clearWakeUpFlag
  | enableUltraLowPower
  | enableFastWakeUp
  | enterStopMode (lowPowerRegulator : Bool) (wfi : Bool)
  | dbgDisableSleep
  | dbgDisableStop
  | dbgDisableStandby
  | unfreezeWwdg
  | unfreezeIwdg
  deriving DecidableEq, Repr

/-- The mutable global state of `board.c` that the claims depend on:
`McuInitialized`, `SystemWakeupTimeCalibrated`, the Cortex PRIMASK bit
(true = interrupts disabled), the LPM off-mode policy flag set through
`LpmSetOffMode`, whether `RtcSetMcuWakeUpTime` has recorded the wake latency,
and the initialized/deinitialized status of the ADC, the radio SPI bus and
the SX1272 I/O pins. -/
structure State where
  mcuInitialized : Bool
  systemWakeupTimeCalibrated : Bool
  primask : Bool
  offModeEnabled : Bool
  mcuWakeUpTimeSet : Bool
  adcInitialized : Bool
  spiInitialized : Bool
  sx1272IoInitialized : Bool
  deriving DecidableEq, Repr

/-- The state at power-on / hard reset: `McuInitialized == false`,
`SystemWakeupTimeCalibrated == false`, interrupts enabled, peripherals down. -/
def initState : State :=
  { mcuInitialized := false
    systemWakeupTimeCalibrated := false
    primask := false
    offModeEnabled := true
    mcuWakeUpTimeSet := false
    adcInitialized := false
    spiInitialized := false
    sx1272IoInitialized := false }

/-- `GetBoardPowerSource` (board.c:578-581): returns the constant
`BATTERY_POWER`. -/
def GetBoardPowerSource : PowerSource := PowerSource.batteryPower

/-- `BoardCriticalSectionBegin` (board.c:123-127): stores the current PRIMASK
into the caller's token, then disables interrupts. -/
def BoardCriticalSectionBegin (s : State) : State × Bool :=
  ({ s with primask := true }, s.primask)

/-- `BoardCriticalSectionEnd` (board.c:129-132): restores PRIMASK from the
token. -/
def BoardCriticalSectionEnd (s : State) (mask : Bool) : State :=
  { s with primask := mask }

/-- Modelled from the spec: the vendor clock-library call `HAL_RCC_OscConfig`
(board.c:438) is not under `src/`; its internal event order follows spec
section 4.2 `ConfigureCold` steps (2)-(3): enable the external main
oscillator and wait on its ready flag, enable the external low-speed
oscillator and wait on its ready flag, then enable the phase-locked loop
sourced from the main oscillator and wait on its lock flag. -/
def HAL_RCC_OscConfigTrace : List Event :=
  [Event.hseConfig true, Event.observeFlag HwFlag.hseRdy,
   Event.lseConfig true, Event.observeFlag HwFlag.lseRdy,
   Event.pllConfig, Event.pllEnable, Event.observeFlag HwFlag.pllRdy]

/-- Modelled from the spec: the vendor clock-library call
`HAL_RCC_ClockConfig` (board.c:449) is not under `src/`; per spec section 4.2
`ConfigureCold` step (4), it selects the phase-locked loop as system clock
source only with the PLL lock flag observed set, then waits until the
hardware reports the PLL as the active source. -/
def HAL_RCC_ClockConfigTrace : List Event :=
  [Event.observeFlag HwFlag.pllRdy, Event.sysclkConfig SysclkSrc.pll,
   Event.observeFlag HwFlag.sysclkPll]

/-- `SystemClockConfig` (board.c:418-467), cold clock bring-up, event trace of
the execution in which every HAL configuration call returns `HAL_OK`:
power-interface clock enable, voltage scale 1, the oscillator/PLL
configuration call, the clock-tree configuration call, the RTC peripheral
clock routing, and the SysTick setup. -/
def SystemClockConfigTrace : List Event :=
  [Event.pwrClkEnable, Event.voltageScaling 1] ++
  HAL_RCC_OscConfigTrace ++
  HAL_RCC_ClockConfigTrace ++
  [Event.periphClkConfigRtc, Event.sysTickConfig, Event.sysTickClkSourceConfig,
   Event.nvicSetPriority]

/-- Outcome of the cold clock configuration: either the function ran to
completion, or a HAL call reported non-OK status and `assert_param( FAIL )`
entered `assert_failed` (board.c:748-758), which loops forever — modelled as
the terminal outcome `trapped`. Modelled from the spec for the part outside
`src/`: the `assert_param` macro is vendor-header code; spec section 7 states
a failed cold-boot clock configuration step traps into an infinite loop. -/
inductive ClockConfigOutcome where
  | trapped | completed
  deriving DecidableEq, Repr

/-- `SystemClockConfig` (board.c:418-467) at HAL-call granularity,
parametrized by the statuses the three HAL configuration calls return
(`HAL_RCC_OscConfig`, `HAL_RCC_ClockConfig`, `HAL_RCCEx_PeriphCLKConfig`).
A non-OK status traps (`assert_failed` infinite loop): no later call runs, no
retry happens, and nothing is returned to the caller. -/
def SystemClockConfigRun (o c p : HalStatus) : ClockConfigOutcome × List Event :=
  if o ≠ HalStatus.ok then
    (ClockConfigOutcome.trapped,
     [Event.pwrClkEnable, Event.voltageScaling 1, Event.oscConfigCall])
  else if c ≠ HalStatus.ok then
    (ClockConfigOutcome.trapped,
     [Event.pwrClkEnable, Event.voltageScaling 1, Event.oscConfigCall,
      Event.clockConfigCall])
  else if p ≠ HalStatus.ok then
    (ClockConfigOutcome.trapped,
     [Event.pwrClkEnable, Event.voltageScaling 1, Event.oscConfigCall,
      Event.clockConfigCall, Event.periphClkConfigCall])
  else
    (ClockConfigOutcome.completed,
     [Event.pwrClkEnable, Event.voltageScaling 1, Event.oscConfigCall,
      Event.clockConfigCall, Event.periphClkConfigCall,
      Event.sysTickConfig, Event.sysTickClkSourceConfig, Event.nvicSetPriority])

/-- `SystemClockReConfig` (board.c:483-518), the post-Stop resume clock
sequence, in program order: power-interface clock enable, voltage scale 1 and
regulator-ready spin-wait, HSE enable and HSERDY spin-wait, PLL
configuration (HSE source, MUL6, DIV3) and enable and PLLRDY spin-wait, PLL
selected as system clock and spin-wait until the hardware reports it active. -/
def SystemClockReConfigTrace : List Event :=
  [Event.pwrClkEnable, Event.voltageScaling 1, Event.observeFlag HwFlag.vosReady,
   Event.hseConfig true, Event.observeFlag HwFlag.hseRdy,
   Event.pllConfig, Event.pllEnable, Event.observeFlag HwFlag.pllRdy,
   Event.sysclkConfig SysclkSrc.pll, Event.observeFlag HwFlag.sysclkPll]

/-- Hardware-observable clock state (spec section 3 `ClockState`): which
oscillators/PLL are enabled and ready, and the selected system clock source. -/
structure ClockHw where
  vosReady : Bool
  hseOn : Bool
  hseRdy : Bool
  pllOn : Bool
  pllRdy : Bool
  sysclkSrc : SysclkSrc
  deriving DecidableEq, Repr

/-- `SystemClockReConfig` (board.c:483-518) as a transformer of the hardware
clock state, for executions in which every spin-wait eventually observes its
ready flag (the loop exits exactly when the flag reads ready, so at loop exit
the flag is set): regulator ready, HSE enabled and ready, PLL configured,
enabled and locked, PLL selected as the system clock source. -/
def SystemClockReConfigHw (c : ClockHw) : ClockHw :=
  let c := { c with vosReady := true }
  let c := { c with hseOn := true }
  let c := { c with hseRdy := true }
  let c := { c with pllOn := true }
  let c := { c with pllRdy := true }
  { c with sysclkSrc := SysclkSrc.pll }

/-- The spec's `Running` clock state: external oscillator on, PLL locked,
PLL selected as system clock source. -/
def ClockRunning (c : ClockHw) : Prop :=
  c.hseOn = true ∧ c.pllOn = true ∧ c.pllRdy = true ∧
  c.sysclkSrc = SysclkSrc.pll

instance (c : ClockHw) : Decidable (ClockRunning c) := by
  unfold ClockRunning; infer_instance

/-- `OnCalibrateSystemWakeupTimeTimerEvent` (board.c:117-121): the calibration
timer's completion callback records the wake latency in the RTC driver and
sets `SystemWakeupTimeCalibrated`. -/
def OnCalibrateSystemWakeupTimeTimerEvent (s : State) : State × List Event :=
  ({ s with mcuWakeUpTimeSet := true, systemWakeupTimeCalibrated := true },
   [Event.rtcSetMcuWakeUpTime])

/-- `CalibrateSystemWakeupTime` (board.c:469-481): when not yet calibrated,
initializes the one-shot timer, sets it to 1000, starts it, and busy-waits on
`SystemWakeupTimeCalibrated`; the wait exits once the timer's completion
callback `OnCalibrateSystemWakeupTimeTimerEvent` has fired (modelled here for
the completing executions the claims assume). When already calibrated the
function does nothing. -/
def CalibrateSystemWakeupTime (s : State) : State × List Event :=
  if s.systemWakeupTimeCalibrated = false then
    let r := OnCalibrateSystemWakeupTimeTimerEvent s
    (r.1, [Event.timerInit, Event.timerSetValue 1000, Event.timerStart] ++ r.2)
  else
    (s, [])

/-- `BoardUnusedIoInit` (board.c:387-416), build without `USE_DEBUGGER`:
USB lines to analog when battery powered, debug-mode disables, watchdog
unfreezes, JTAG pins to analog. -/
def BoardUnusedIoInitTrace : List Event :=
  (if GetBoardPowerSource = PowerSource.batteryPower then
    [Event.gpioInit Pin.usbDm PinMode.analogic,
     Event.gpioInit Pin.usbDp PinMode.analogic]
   else []) ++
  [Event.dbgDisableSleep, Event.dbgDisableStop, Event.dbgDisableStandby,
   Event.unfreezeWwdg, Event.unfreezeIwdg,
   Event.gpioInit Pin.jtagTms PinMode.analogic,
   Event.gpioInit Pin.jtagTck PinMode.analogic,
   Event.gpioInit Pin.jtagTdi PinMode.analogic,
   Event.gpioInit Pin.jtagTdo PinMode.analogic,
   Event.gpioInit Pin.jtagNrst PinMode.analogic]

/-- The trace of `BoardInitMcu`'s resume path (board.c:179-182, 184-187, 209):
`SystemClockReConfig`, then ADC, radio SPI and SX1272 I/O re-initialization,
then the watchdog. -/
def BoardResumeTrace : List Event :=
  SystemClockReConfigTrace ++
  [Event.adcInit, Event.spiInit, Event.sx1272IoInit, Event.wdtInit]

/-- `BoardInitMcu` (board.c:142-210). First branch (`McuInitialized == false`):
HAL init, LED1 init (`USE_POTENTIOMETER == 0`), cold clock configuration,
UART FIFO/console setup, RTC init, LED off and LED re-inits, unused-I/O init,
and — battery powered — `LpmSetOffMode( ..., LPM_DISABLE )`. Otherwise only
`SystemClockReConfig`. Both branches then run `AdcInit`, `SpiInit`,
`SX1272IoInit`. The second `McuInitialized == false` check (still equal to the
entry value) sets the flag, runs the SX1272 debug/TCXO pin inits and — battery
powered — the blocking wake-latency calibration. Finally `WdtInit`. The cold
clock configuration is modelled by its all-OK trace (a failing status traps,
see `SystemClockConfigRun`). -/
def BoardInitMcu (s : State) : State × List Event :=
  if s.mcuInitialized = false then
    let coldTr : List Event :=
      [Event.halInit, Event.gpioInit Pin.led1 PinMode.output] ++
      SystemClockConfigTrace ++
      [Event.fifoInit true 1024, Event.fifoInit false 1024,
       Event.uartInit, Event.uartConfig 115200,
       Event.rtcInit,
       Event.gpioWrite Pin.led1 0,
       Event.gpioInit Pin.led1 PinMode.output,
       Event.gpioInit Pin.led2 PinMode.output,
       Event.gpioInit Pin.led3 PinMode.output,
       Event.gpioInit Pin.led4 PinMode.output] ++
      BoardUnusedIoInitTrace ++
      (if GetBoardPowerSource = PowerSource.batteryPower then
        [Event.lpmSetOffMode false] else [])
    let s1 : State :=
      if GetBoardPowerSource = PowerSource.batteryPower then
        { s with offModeEnabled := false } else s
    let s2 : State :=
      { s1 with adcInitialized := true, spiInitialized := true,
                sx1272IoInitialized := true }
    let s3 : State := { s2 with mcuInitialized := true }
    let r : State × List Event :=
      if GetBoardPowerSource = PowerSource.batteryPower then
        CalibrateSystemWakeupTime s3
      else (s3, [])
    (r.1,
     coldTr ++
     [Event.adcInit, Event.spiInit, Event.sx1272IoInit,
      Event.sx1272IoDbgInit, Event.sx1272IoTcxoInit] ++
     r.2 ++ [Event.wdtInit])
  else
    ({ s with adcInitialized := true, spiInitialized := true,
              sx1272IoInitialized := true },
     BoardResumeTrace)

/-- `BoardDeInitMcu` (board.c:220-242): ADC, radio SPI and SX1272 I/O
teardown, HSE oscillator pins to analog, LSE oscillator pins to pulled-down
input (minimum-leakage states). -/
def BoardDeInitMcu (s : State) : State × List Event :=
  ({ s with adcInitialized := false, spiInitialized := false,
            sx1272IoInitialized := false },
   [Event.adcDeInit, Event.spiDeInit, Event.sx1272IoDeInit,
    Event.gpioInit Pin.oscHseIn PinMode.analogic,
    Event.gpioInit Pin.oscHseOut PinMode.analogic,
    Event.gpioInit Pin.oscLseIn PinMode.input,
    Event.gpioInit Pin.oscLseOut PinMode.input])

/-- `LpmEnterStopMode` (board.c:588-615): inside one critical section, board
teardown (`BoardDeInitMcu`), PVD disable, wake-up flag clear, ultra-low-power
and fast-wake-up enables; the critical section then ends and
`HAL_PWR_EnterSTOPMode( PWR_LOWPOWERREGULATOR_ON, PWR_STOPENTRY_WFI )` halts.
The returned state is the post-wake state (RAM survives Stop mode). -/
def LpmEnterStopMode (s : State) : State × List Event :=
  let b := BoardCriticalSectionBegin s
  let d := BoardDeInitMcu b.1
  let s2 := BoardCriticalSectionEnd d.1 b.2
  (s2,
   [Event.criticalBegin] ++ d.2 ++
   [Event.disablePVD, Event.clearWakeUpFlag, Event.enableUltraLowPower,
    Event.enableFastWakeUp, Event.criticalEnd,
    Event.enterStopMode true true])

/-- `LpmExitStopMode` (board.c:620-629): re-runs `BoardInitMcu` inside a
critical section. -/
def LpmExitStopMode (s : State) : State × List Event :=
  let b := BoardCriticalSectionBegin s
  let r := BoardInitMcu b.1
  let s2 := BoardCriticalSectionEnd r.1 b.2
  (s2, [Event.criticalBegin] ++ r.2 ++ [Event.criticalEnd])

/-- `n` consecutive calls to `BoardInitMcu` within one power cycle, with the
concatenated event trace. -/
def BoardInitMcuIter : Nat → State → State × List Event
  | 0, s => (s, [])
  | n + 1, s =>
    let r := BoardInitMcu s
    let rest := BoardInitMcuIter n r.1
    (rest.1, r.2 ++ rest.2)

/-- The trace of the first `BoardInitMcu` call from the power-on state. -/
def BoardColdBootTrace : List Event := (BoardInitMcu initState).2



/-- The property claimed for two consecutive `CalibrateSystemWakeupTime`
calls: across both calls the one-shot timer is initialized, set to 1000 and
started exactly once, and the second call performs no effect (empty trace,
unchanged state). -/
def CalibrateTwiceProp (s : State) : Prop :=
  ((CalibrateSystemWakeupTime s).2 ++
      (CalibrateSystemWakeupTime (CalibrateSystemWakeupTime s).1).2).count
      Event.timerInit = 1 ∧
  ((CalibrateSystemWakeupTime s).2 ++
      (CalibrateSystemWakeupTime (CalibrateSystemWakeupTime s).1).2).count
      (Event.timerSetValue 1000) = 1 ∧
  ((CalibrateSystemWakeupTime s).2 ++
      (CalibrateSystemWakeupTime (CalibrateSystemWakeupTime s).1).2).count
      Event.timerStart = 1 ∧
  (CalibrateSystemWakeupTime (CalibrateSystemWakeupTime s).1).2 = [] ∧
  (CalibrateSystemWakeupTime (CalibrateSystemWakeupTime s).1).1 =
    (CalibrateSystemWakeupTime s).1

/-- The property claimed for `n` consecutive `SystemClockReConfig` calls:
the hardware clock state is `Running` with the PLL reported as system clock
source. -/
def ResumeIdempotentProp (n : Nat) (c : ClockHw) : Prop :=
  ClockRunning (SystemClockReConfigHw^[n] c) ∧
  (SystemClockReConfigHw^[n] c).sysclkSrc = SysclkSrc.pll

/-- The property claimed for `LpmExitStopMode` from an `Initialized` state:
its trace is exactly `BoardInitMcu`'s resume-path trace wrapped in one
critical section, its resulting state equals the state `BoardInitMcu` itself
would produce, the lifecycle flag is unchanged, and the same holds for the
state reached after a full `LpmEnterStopMode`/wake/`LpmExitStopMode` cycle. -/
def ExitStopResumesProp (s : State) : Prop :=
  (LpmExitStopMode s).2 =
    [Event.criticalBegin] ++ BoardResumeTrace ++ [Event.criticalEnd] ∧
  (LpmExitStopMode s).1 = (BoardInitMcu s).1 ∧
  (LpmExitStopMode s).1.mcuInitialized = s.mcuInitialized ∧
  (LpmExitStopMode (LpmEnterStopMode s).1).1 =
    (BoardInitMcu (LpmEnterStopMode s).1).1 ∧
  (LpmExitStopMode (LpmEnterStopMode s).1).1.mcuInitialized = s.mcuInitialized

/-- The single-cold-boot property for `n` consecutive `BoardInitMcu` calls
from the power-on state: the total trace is the cold-boot trace followed by
`n - 1` copies of the resume trace (so every later call executes only the
resume path); each cold-boot step (HAL init, cold clock configuration -
witnessed by its SysTick setup, UART ring-buffer/console init, RTC init,
LED-off, unused-I/O init) and the wake-latency calibration (timer start)
occurs exactly once; and the lifecycle flag transitions false to true on the
first call and is never reset by any operation of the module. -/
def SingleColdBootProp (n : Nat) : Prop :=
  (BoardInitMcuIter n initState).2 =
    BoardColdBootTrace ++ (List.replicate (n - 1) BoardResumeTrace).flatten ∧
  (BoardInitMcuIter n initState).2.count Event.halInit = 1 ∧
  (BoardInitMcuIter n initState).2.count Event.sysTickConfig = 1 ∧
  (BoardInitMcuIter n initState).2.count Event.uartInit = 1 ∧
  (BoardInitMcuIter n initState).2.count (Event.fifoInit true 1024) = 1 ∧
  (BoardInitMcuIter n initState).2.count Event.rtcInit = 1 ∧
  (BoardInitMcuIter n initState).2.count (Event.gpioWrite Pin.led1 0) = 1 ∧
  (BoardInitMcuIter n initState).2.count
    (Event.gpioInit Pin.usbDm PinMode.analogic) = 1 ∧
  (BoardInitMcuIter n initState).2.count Event.timerStart = 1 ∧
  initState.mcuInitialized = false ∧
  (BoardInitMcu initState).1.mcuInitialized = true ∧
  (BoardInitMcuIter n initState).1.mcuInitialized = true ∧
  (∀ s : State, (BoardInitMcu s).1.mcuInitialized = true) ∧
  (∀ s : State, (BoardDeInitMcu s).1.mcuInitialized = s.mcuInitialized) ∧
  (∀ s : State, (LpmEnterStopMode s).1.mcuInitialized = s.mcuInitialized) ∧
  (∀ s : State,
    (CalibrateSystemWakeupTime s).1.mcuInitialized = s.mcuInitialized)

/-! ## Helper lemmas -/

lemma calibrate_mcuInit (s : State) :
    (CalibrateSystemWakeupTime s).1.mcuInitialized = s.mcuInitialized := by
  unfold CalibrateSystemWakeupTime OnCalibrateSystemWakeupTimeTimerEvent
  split <;> rfl

lemma boardInitMcu_of_initialized (s : State) (h : s.mcuInitialized = true) :
    BoardInitMcu s =
      ({ s with adcInitialized := true, spiInitialized := true,
                sx1272IoInitialized := true }, BoardResumeTrace) := by
  simp [BoardInitMcu, h]

lemma boardInitMcu_mcuInit (s : State) :
    (BoardInitMcu s).1.mcuInitialized = true := by
  by_cases h : s.mcuInitialized = false
  · simp [BoardInitMcu, h, GetBoardPowerSource, calibrate_mcuInit]
  · have h2 : s.mcuInitialized = true := by
      cases hm : s.mcuInitialized
      · exact absurd hm h
      · rfl
    rw [boardInitMcu_of_initialized s h2]
    exact h2

lemma lpmExit_eq_boardInit (s : State) (h : s.mcuInitialized = true) :
    (LpmExitStopMode s).1 = (BoardInitMcu s).1 := by
  simp [LpmExitStopMode, BoardCriticalSectionBegin, BoardCriticalSectionEnd,
    BoardInitMcu, h]

lemma boardInitMcuIter_initialized (n : Nat) (s : State)
    (h : s.mcuInitialized = true) :
    (BoardInitMcuIter n s).2 = (List.replicate n BoardResumeTrace).flatten ∧
    (BoardInitMcuIter n s).1.mcuInitialized = true := by
  induction n generalizing s with
  | zero => exact ⟨rfl, h⟩
  | succ m ih =>
    have h2 : (BoardInitMcu s).1.mcuInitialized = true := boardInitMcu_mcuInit s
    obtain ⟨e1, e2⟩ := ih (BoardInitMcu s).1 h2
    refine ⟨?_, e2⟩
    show (BoardInitMcu s).2 ++ (BoardInitMcuIter m (BoardInitMcu s).1).2 = _
    rw [e1, boardInitMcu_of_initialized s h]
    simp [List.replicate_succ]

lemma count_join_replicate (e : Event) (k : Nat) (l : List Event) :
    ((List.replicate k l).flatten).count e = k * l.count e := by
  induction k with
  | zero => simp
  | succ m ih =>
    simp [List.replicate_succ, List.count_append, ih, Nat.succ_mul]
    omega

/-! ## Claims -/

/-- C5: for every initial global-interrupt-enable state (both the
enabled-before and the disabled-before case), `BoardCriticalSectionBegin`
with a caller-supplied token followed by `BoardCriticalSectionEnd` with the
same token leaves interrupts disabled in between and restores the
interrupt-enable state (indeed the entire state) to exactly its prior value. -/
theorem criticalSection_restores_interrupt_state (s : State) :
    (BoardCriticalSectionBegin s).1.primask = true ∧
    (BoardCriticalSectionEnd (BoardCriticalSectionBegin s).1
      (BoardCriticalSectionBegin s).2).primask = s.primask ∧
    BoardCriticalSectionEnd (BoardCriticalSectionBegin s).1
      (BoardCriticalSectionBegin s).2 = s := by
  exact ⟨rfl, rfl, rfl⟩

/-- C2: in the resume clock sequence (`SystemClockReConfig`) and in the cold
clock sequence (`SystemClockConfig`), the HSE-ready flag is observed strictly
before the PLL-enable step, and the PLL-ready flag is observed strictly
before the step selecting the PLL as system clock source. -/
theorem clockSequences_ready_observed_before_dependent_steps :
    (Event.observeFlag HwFlag.hseRdy ∈ SystemClockReConfigTrace ∧
     Event.pllEnable ∈ SystemClockReConfigTrace ∧
     Event.observeFlag HwFlag.pllRdy ∈ SystemClockReConfigTrace ∧
     Event.sysclkConfig SysclkSrc.pll ∈ SystemClockReConfigTrace ∧
     SystemClockReConfigTrace.indexOf (Event.observeFlag HwFlag.hseRdy) <
       SystemClockReConfigTrace.indexOf Event.pllEnable ∧
     SystemClockReConfigTrace.indexOf (Event.observeFlag HwFlag.pllRdy) <
       SystemClockReConfigTrace.indexOf (Event.sysclkConfig SysclkSrc.pll)) ∧
    (Event.observeFlag HwFlag.hseRdy ∈ SystemClockConfigTrace ∧
     Event.pllEnable ∈ SystemClockConfigTrace ∧
     Event.observeFlag HwFlag.pllRdy ∈ SystemClockConfigTrace ∧
     Event.sysclkConfig SysclkSrc.pll ∈ SystemClockConfigTrace ∧
     SystemClockConfigTrace.indexOf (Event.observeFlag HwFlag.hseRdy) <
       SystemClockConfigTrace.indexOf Event.pllEnable ∧
     SystemClockConfigTrace.indexOf (Event.observeFlag HwFlag.pllRdy) <
       SystemClockConfigTrace.indexOf (Event.sysclkConfig SysclkSrc.pll)) := by
  decide

/-- C3 counterexample: in `LpmEnterStopMode`'s event trace (from the power-on
state), the PVD disable, the wake-flag clear and the ultra-low-power and
fast-wake-up enables all occur before `CRITICAL_SECTION_END`, i.e. inside the
critical section — not after its end as the claim states. -/
theorem lpmEnterStopMode_power_config_not_after_critical_end :
    ¬ ((LpmEnterStopMode initState).2.indexOf Event.criticalEnd <
         (LpmEnterStopMode initState).2.indexOf Event.disablePVD) ∧
    ¬ ((LpmEnterStopMode initState).2.indexOf Event.criticalEnd <
         (LpmEnterStopMode initState).2.indexOf Event.clearWakeUpFlag) ∧
    ¬ ((LpmEnterStopMode initState).2.indexOf Event.criticalEnd <
         (LpmEnterStopMode initState).2.indexOf Event.enableUltraLowPower) ∧
    ¬ ((LpmEnterStopMode initState).2.indexOf Event.criticalEnd <
         (LpmEnterStopMode initState).2.indexOf Event.enableFastWakeUp) := by
  decide

/-- C3 (amended): in every execution of `LpmEnterStopMode`, the radio
bus/I-O and ADC teardown, the minimum-leakage pin configuration, the PVD
disable, the wake-flag clear and the ultra-low-power/fast-wake-up enables all
happen inside the single critical section (strictly between
`CRITICAL_SECTION_BEGIN` and `CRITICAL_SECTION_END`); only then, after the
critical section ends, is the halt instruction issued with the regulator in
low-power mode, as the final step. -/
theorem lpmEnterStopMode_ordering (s : State) :
    (LpmEnterStopMode s).2 =
      [Event.criticalBegin, Event.adcDeInit, Event.spiDeInit,
       Event.sx1272IoDeInit,
       Event.gpioInit Pin.oscHseIn PinMode.analogic,
       Event.gpioInit Pin.oscHseOut PinMode.analogic,
       Event.gpioInit Pin.oscLseIn PinMode.input,
       Event.gpioInit Pin.oscLseOut PinMode.input,
       Event.disablePVD, Event.clearWakeUpFlag, Event.enableUltraLowPower,
       Event.enableFastWakeUp, Event.criticalEnd,
       Event.enterStopMode true true] ∧
    (∀ e ∈ [Event.adcDeInit, Event.spiDeInit, Event.sx1272IoDeInit,
            Event.disablePVD, Event.clearWakeUpFlag,
            Event.enableUltraLowPower, Event.enableFastWakeUp],
      (LpmEnterStopMode s).2.indexOf Event.criticalBegin <
        (LpmEnterStopMode s).2.indexOf e ∧
      (LpmEnterStopMode s).2.indexOf e <
        (LpmEnterStopMode s).2.indexOf Event.criticalEnd) ∧
    (LpmEnterStopMode s).2.indexOf Event.criticalEnd <
      (LpmEnterStopMode s).2.indexOf (Event.enterStopMode true true) ∧
    (LpmEnterStopMode s).2.getLast? = some (Event.enterStopMode true true) := by
  have h : (LpmEnterStopMode s).2 =
      [Event.criticalBegin, Event.adcDeInit, Event.spiDeInit,
       Event.sx1272IoDeInit,
       Event.gpioInit Pin.oscHseIn PinMode.analogic,
       Event.gpioInit Pin.oscHseOut PinMode.analogic,
       Event.gpioInit Pin.oscLseIn PinMode.input,
       Event.gpioInit Pin.oscLseOut PinMode.input,
       Event.disablePVD, Event.clearWakeUpFlag, Event.enableUltraLowPower,
       Event.enableFastWakeUp, Event.criticalEnd,
       Event.enterStopMode true true] := rfl
  rw [h]
  exact ⟨rfl, by decide, by decide, by decide⟩

/-- C7: whenever one of the three HAL configuration calls of the cold clock
sequence reports a non-OK status, `SystemClockConfig` traps (`assert_failed`
infinite loop): the outcome is `trapped`, the SysTick setup after the
configuration calls is never reached, and no configuration call is retried
(each appears at most once in the trace). -/
theorem systemClockConfig_failure_traps (o c p : HalStatus)
    (h : ¬(o = HalStatus.ok ∧ c = HalStatus.ok ∧ p = HalStatus.ok)) :
    (SystemClockConfigRun o c p).1 = ClockConfigOutcome.trapped ∧
    Event.sysTickConfig ∉ (SystemClockConfigRun o c p).2 ∧
    (SystemClockConfigRun o c p).2.count Event.oscConfigCall ≤ 1 ∧
    (SystemClockConfigRun o c p).2.count Event.clockConfigCall ≤ 1 ∧
    (SystemClockConfigRun o c p).2.count Event.periphClkConfigCall ≤ 1 := by
  cases o <;> cases c <;> cases p <;> revert h <;> decide

/-- Witness for C7 at the concrete input where the oscillator configuration
call reports `HAL_ERROR`. -/
theorem systemClockConfig_failure_traps_witness :
    ¬(HalStatus.error = HalStatus.ok ∧ HalStatus.ok = HalStatus.ok ∧
      HalStatus.ok = HalStatus.ok) ∧
    ((SystemClockConfigRun HalStatus.error HalStatus.ok HalStatus.ok).1 =
       ClockConfigOutcome.trapped ∧
     Event.sysTickConfig ∉
       (SystemClockConfigRun HalStatus.error HalStatus.ok HalStatus.ok).2 ∧
     (SystemClockConfigRun HalStatus.error HalStatus.ok
        HalStatus.ok).2.count Event.oscConfigCall ≤ 1 ∧
     (SystemClockConfigRun HalStatus.error HalStatus.ok
        HalStatus.ok).2.count Event.clockConfigCall ≤ 1 ∧
     (SystemClockConfigRun HalStatus.error HalStatus.ok
        HalStatus.ok).2.count Event.periphClkConfigCall ≤ 1) :=
  ⟨by decide,
   systemClockConfig_failure_traps HalStatus.error HalStatus.ok HalStatus.ok
     (by decide)⟩

/-- C8: every call to `BoardInitMcu`, on the cold-boot branch as well as on
the resume branch, re-initializes the ADC, the radio SPI bus and the SX1272
I/O pins before returning: the corresponding events are in the trace and the
resulting state reports all three initialized. -/
theorem boardInitMcu_reinits_adc_spi_radio (s : State) :
    Event.adcInit ∈ (BoardInitMcu s).2 ∧
    Event.spiInit ∈ (BoardInitMcu s).2 ∧
    Event.sx1272IoInit ∈ (BoardInitMcu s).2 ∧
    (BoardInitMcu s).1.adcInitialized = true ∧
    (BoardInitMcu s).1.spiInitialized = true ∧
    (BoardInitMcu s).1.sx1272IoInitialized = true := by
  by_cases h : s.mcuInitialized = false
  · simp [BoardInitMcu, h, GetBoardPowerSource, CalibrateSystemWakeupTime,
      OnCalibrateSystemWakeupTimeTimerEvent, BoardUnusedIoInitTrace,
      SystemClockConfigTrace, HAL_RCC_OscConfigTrace, HAL_RCC_ClockConfigTrace]
    split <;> simp
  · simp [BoardInitMcu, h, BoardResumeTrace, SystemClockReConfigTrace]

/-- C10: `GetBoardPowerSource` always returns `BATTERY_POWER`; consequently,
on a cold boot the battery-only behaviors run unconditionally — the
full-shutdown low-power (off) mode is disabled, the USB lines are put into
analog state, and the wake-latency calibration runs — and the
external-power/USB branches are unreachable. -/
theorem getBoardPowerSource_battery_consequences :
    GetBoardPowerSource = PowerSource.batteryPower ∧
    GetBoardPowerSource ≠ PowerSource.usbPower ∧
    Event.lpmSetOffMode false ∈ (BoardInitMcu initState).2 ∧
    Event.gpioInit Pin.usbDm PinMode.analogic ∈ (BoardInitMcu initState).2 ∧
    Event.gpioInit Pin.usbDp PinMode.analogic ∈ (BoardInitMcu initState).2 ∧
    Event.timerStart ∈ (BoardInitMcu initState).2 ∧
    (BoardInitMcu initState).1.offModeEnabled = false ∧
    (BoardInitMcu initState).1.systemWakeupTimeCalibrated = true := by
  decide

/-- C4: for every pair of consecutive `CalibrateSystemWakeupTime` calls whose
first call completes (starting uncalibrated, with the timer-completion
callback firing), the timer is initialized, set to 1000 and started exactly
once across both calls, and the second call is a no-op. -/
theorem calibrate_twice_arms_timer_once (s : State)
    (h : s.systemWakeupTimeCalibrated = false) : CalibrateTwiceProp s := by
  unfold CalibrateTwiceProp
  simp [CalibrateSystemWakeupTime, OnCalibrateSystemWakeupTimeTimerEvent, h,
    List.count_cons, List.count_nil]

/-- Witness for C4 at the power-on state. -/
theorem calibrate_twice_arms_timer_once_witness :
    initState.systemWakeupTimeCalibrated = false ∧
    CalibrateTwiceProp initState :=
  ⟨rfl, calibrate_twice_arms_timer_once initState rfl⟩

/-- C6: for every `n ≥ 1` and every starting hardware clock state, `n`
consecutive `SystemClockReConfig` calls (with each spin-wait eventually
observing its ready flag) leave the clock `Running` with the PLL reported as
system clock source after each call. -/
theorem systemClockReConfig_n_times_running (n : Nat) (h : 1 ≤ n)
    (c : ClockHw) : ResumeIdempotentProp n c := by
  obtain ⟨m, rfl⟩ : ∃ m, n = m + 1 := ⟨n - 1, (Nat.succ_pred_eq_of_pos h).symm⟩
  unfold ResumeIdempotentProp
  rw [Function.iterate_succ_apply']
  exact ⟨⟨rfl, rfl, rfl, rfl⟩, rfl⟩

/-- Witness for C6: two consecutive resume sequences from a cold-default
clock state. -/
theorem systemClockReConfig_n_times_running_witness :
    1 ≤ 2 ∧
    ResumeIdempotentProp 2
      ⟨false, false, false, false, false, SysclkSrc.msi⟩ :=
  ⟨by decide, systemClockReConfig_n_times_running 2 (by decide)
    ⟨false, false, false, false, false, SysclkSrc.msi⟩⟩

/-- C9: from an `Initialized` state, `LpmExitStopMode` runs exactly
`BoardInitMcu`'s resume path inside a critical section, produces the same
state `BoardInitMcu` itself would, leaves the lifecycle flag unchanged, and
after an `LpmEnterStopMode`/wake/`LpmExitStopMode` cycle the resulting state
equals the one another `BoardInitMcu` call would produce, with the lifecycle
flag still unchanged. -/
theorem lpmExitStopMode_runs_resume_path (s : State)
    (h : s.mcuInitialized = true) : ExitStopResumesProp s := by
  have h1 : (({ s with primask := true } : State)).mcuInitialized = true := h
  have hstop : ((LpmEnterStopMode s).1).mcuInitialized = true := h
  unfold ExitStopResumesProp
  refine ⟨?_, lpmExit_eq_boardInit s h, ?_, lpmExit_eq_boardInit _ hstop, ?_⟩
  · show [Event.criticalBegin] ++
        (BoardInitMcu { s with primask := true }).2 ++ [Event.criticalEnd] = _
    rw [boardInitMcu_of_initialized _ h1]
  · rw [lpmExit_eq_boardInit s h, boardInitMcu_mcuInit s]
    exact h.symm
  · rw [lpmExit_eq_boardInit _ hstop, boardInitMcu_mcuInit]
    exact h.symm

/-- Witness for C9 at a concrete `Initialized` state. -/
theorem lpmExitStopMode_runs_resume_path_witness :
    ({ initState with mcuInitialized := true } : State).mcuInitialized =
      true ∧
    ExitStopResumesProp { initState with mcuInitialized := true } :=
  ⟨rfl, lpmExitStopMode_runs_resume_path _ rfl⟩

/-- C1: for every `n ≥ 1`, across `n` `BoardInitMcu` calls within one power
cycle starting from the power-on state, the cold-boot sequence and the
wake-latency calibration each execute exactly once (on the first call),
every later call contributes exactly the resume trace, and the lifecycle
flag transitions false to true exactly once and is never reset by any
operation of the module. -/
theorem boardInitMcu_single_cold_boot (n : Nat) (h : 1 ≤ n) :
    SingleColdBootProp n := by
  obtain ⟨m, rfl⟩ : ∃ m, n = m + 1 := ⟨n - 1, (Nat.succ_pred_eq_of_pos h).symm⟩
  have hcold : (BoardInitMcu initState).1.mcuInitialized = true :=
    boardInitMcu_mcuInit initState
  obtain ⟨e1, e2⟩ :=
    boardInitMcuIter_initialized m (BoardInitMcu initState).1 hcold
  have htr : (BoardInitMcuIter (m + 1) initState).2 =
      BoardColdBootTrace ++ (List.replicate m BoardResumeTrace).flatten := by
    show (BoardInitMcu initState).2 ++
        (BoardInitMcuIter m (BoardInitMcu initState).1).2 = _
    rw [e1]
    rfl
  have hcount : ∀ e : Event, (BoardInitMcuIter (m + 1) initState).2.count e =
      BoardColdBootTrace.count e + m * BoardResumeTrace.count e := by
    intro e
    rw [htr, List.count_append, count_join_replicate]
  unfold SingleColdBootProp
  refine ⟨by rw [Nat.add_sub_cancel]; exact htr,
    ?_, ?_, ?_, ?_, ?_, ?_, ?_, ?_, rfl, hcold, e2,
    boardInitMcu_mcuInit, fun s => rfl, fun s => rfl, calibrate_mcuInit⟩
  · rw [hcount Event.halInit,
      (by decide : BoardColdBootTrace.count Event.halInit = 1),
      (by decide : BoardResumeTrace.count Event.halInit = 0)]
    simp
  · rw [hcount Event.sysTickConfig,
      (by decide : BoardColdBootTrace.count Event.sysTickConfig = 1),
      (by decide : BoardResumeTrace.count Event.sysTickConfig = 0)]
    simp
  · rw [hcount Event.uartInit,
      (by decide : BoardColdBootTrace.count Event.uartInit = 1),
      (by decide : BoardResumeTrace.count Event.uartInit = 0)]
    simp
  · rw [hcount (Event.fifoInit true 1024),
      (by decide : BoardColdBootTrace.count (Event.fifoInit true 1024) = 1),
      (by decide : BoardResumeTrace.count (Event.fifoInit true 1024) = 0)]
    simp
  · rw [hcount Event.rtcInit,
      (by decide : BoardColdBootTrace.count Event.rtcInit = 1),
      (by decide : BoardResumeTrace.count Event.rtcInit = 0)]
    simp
  · rw [hcount (Event.gpioWrite Pin.led1 0),
      (by decide : BoardColdBootTrace.count (Event.gpioWrite Pin.led1 0) = 1),
      (by decide : BoardResumeTrace.count (Event.gpioWrite Pin.led1 0) = 0)]
    simp
  · rw [hcount (Event.gpioInit Pin.usbDm PinMode.analogic),
      (by decide :
        BoardColdBootTrace.count (Event.gpioInit Pin.usbDm PinMode.analogic)
          = 1),
      (by decide :
        BoardResumeTrace.count (Event.gpioInit Pin.usbDm PinMode.analogic)
          = 0)]
    simp
  · rw [hcount Event.timerStart,
      (by decide : BoardColdBootTrace.count Event.timerStart = 1),
      (by decide : BoardResumeTrace.count Event.timerStart = 0)]
    simp

/-- Witness for C1 at three consecutive calls. -/
theorem boardInitMcu_single_cold_boot_witness :
    1 ≤ 3 ∧ SingleColdBootProp 3 :=
  ⟨by decide, boardInitMcu_single_cold_boot 3 (by decide)⟩

end SKiM980A
